import Mathlib

/-!
Verification of the timeslide/timewarp C core (distance.c, chunk.c, ranges.c)
against its natural-language specification.

Modelling conventions.

* C `int` and `int64_t` values are modelled as unbounded `ℤ`.  Where an
  arithmetic operation is performed at a fixed machine width and the width is
  relevant to a property (32-bit multiplication of day counts, narrowing on
  subtraction), the operation is wrapped explicitly with `wrap32` / `wrap64`,
  which reduce modulo `2^32` / `2^64` into the signed range, mirroring
  two's-complement wraparound.
* C `double` values are modelled as exact rationals `ℚ`.  The decimal
  constants 1e6, 1e-6, 1e-7, 1e3 used by the guarded floor are modelled by
  exact rational scaling.  The final `(int64_t)` cast of an integral double is
  modelled as exact.
* R's `NA` / non-finite slots are modelled as `Option.none`; a vector of
  timestamps is a `List (Option _)` and the distance output, a `REALSXP`
  vector in C, is a `List (Option ℚ)` whose entries are produced by casting
  the integer bucket through `Int.cast`, mirroring `p_out[i] = elt`.
* Helper code of the package that is not under src/ (divmod.c's `int_div`,
  utils.c's `convert_days_to_components`, changes.c's `warp_changes`) is
  modelled from the specification; each such definition carries a doc comment
  starting with `Modelled from the spec:`.
-/

/-- C signed integer division for a positive divisor: the hardware quotient
truncates toward zero, so for `a < 0` it is `-((-a) / b)` with `/` the
nonnegative (Euclidean) quotient. -/
def ctdiv (a b : ℤ) : ℤ :=
  if a < 0 then -((-a) / b) else a / b

/-- The inline floored-division pattern that every loop of distance.c and
chunk.c writes out: `(elt - (every - 1)) / every` when `elt < 0`, else
`elt / every`, with `/` the C (truncating) division `ctdiv`. -/
def c_floor_div (a b : ℤ) : ℤ :=
  if a < 0 then ctdiv (a - (b - 1)) b else ctdiv a b

/-- Modelled from the spec: `int_div` is provided by divmod.h/divmod.c, which
is not under src/.  Section 4.1 defines the division primitive as floored
division `⌊a/b⌋` for `b ≥ 1`, which is `Int.fdiv`. -/
def int_div (a b : ℤ) : ℤ :=
  Int.fdiv a b

/-- Two's-complement wraparound of a 32-bit signed operation. -/
def wrap32 (z : ℤ) : ℤ :=
  (z + 2 ^ 31) % 2 ^ 32 - 2 ^ 31

/-- Two's-complement wraparound of a 64-bit signed operation. -/
def wrap64 (z : ℤ) : ℤ :=
  (z + 2 ^ 63) % 2 ^ 64 - 2 ^ 63

lemma wrap32_eq_self {z : ℤ} (h1 : -(2 ^ 31) ≤ z) (h2 : z < 2 ^ 31) :
    wrap32 z = z := by
  unfold wrap32
  omega

lemma wrap64_eq_self {z : ℤ} (h1 : -(2 ^ 63) ≤ z) (h2 : z < 2 ^ 63) :
    wrap64 z = z := by
  unfold wrap64
  omega

lemma ctdiv_of_nonneg {a b : ℤ} (ha : 0 ≤ a) : ctdiv a b = a / b := by
  rw [ctdiv, if_neg (by omega)]

/-- The code's inline pattern computes mathematical floored division for any
positive divisor. -/
lemma c_floor_div_eq_fdiv (a : ℤ) {b : ℤ} (hb : 0 < b) :
    c_floor_div a b = Int.fdiv a b := by
  rw [Int.fdiv_eq_ediv _ hb.le]
  by_cases ha : a < 0
  · rw [c_floor_div, if_pos ha, ctdiv, if_pos (by omega)]
    have hr0 : 0 ≤ a % b := Int.emod_nonneg a hb.ne'
    have hrb : a % b < b := Int.emod_lt_of_pos a hb
    have key : -(a - (b - 1)) = (b - 1 - a % b) + (-(a / b)) * b := by
      rw [Int.emod_def]; ring
    rw [key, Int.add_mul_ediv_right _ _ hb.ne',
      Int.ediv_eq_zero_of_lt (by omega) (by omega)]
    ring
  · rw [c_floor_div, if_neg ha, ctdiv_of_nonneg (by omega)]

/-- Floored division composes: dividing by `a` and then by `b` is dividing by
`a * b` (both divisors positive). -/
lemma fdiv_fdiv (e : ℤ) {a b : ℤ} (ha : 0 < a) (hb : 0 < b) :
    Int.fdiv (Int.fdiv e a) b = Int.fdiv e (a * b) := by
  rw [Int.fdiv_eq_ediv _ ha.le, Int.fdiv_eq_ediv _ hb.le,
    Int.fdiv_eq_ediv _ (by positivity)]
  have hab : (0 : ℤ) < a * b := by positivity
  have h1 := Int.ediv_add_emod e a
  have h2 := Int.ediv_add_emod (e / a) b
  have hr1 : 0 ≤ e % a := Int.emod_nonneg e ha.ne'
  have hr1b : e % a < a := Int.emod_lt_of_pos e ha
  have hr2 : 0 ≤ (e / a) % b := Int.emod_nonneg _ hb.ne'
  have hr2b : (e / a) % b < b := Int.emod_lt_of_pos _ hb
  have key : e = (e / a / b) * (a * b) + (((e / a) % b) * a + e % a) := by
    linear_combination (-1 : ℤ) * h1 - a * h2
  have hR0 : 0 ≤ ((e / a) % b) * a + e % a := by positivity
  have hRlt : ((e / a) % b) * a + e % a < a * b := by nlinarith
  refine (((Int.ediv_emod_unique hab).mpr ⟨?_, hR0, hRlt⟩).1).symm
  linear_combination (-1 : ℤ) * key

-- ---------------------------------------------------------------------------
-- Per-element distance engines (distance.c).  Each function mirrors the body
-- of the C loop for one non-missing element; the origin offset is `none` when
-- `origin == R_NilValue`.  The subtraction of the origin offset is a 32-bit
-- `int` operation in the year/month/day paths and a 64-bit one in the
-- POSIXct paths, hence the explicit wraps.
-- ---------------------------------------------------------------------------

/-- Loop body of `warp_distance_year` (distance.c) for a non-`NA` element:
subtract the origin's year offset when present, then divide by `every`
unless `every == 1`. -/
def warp_distance_year_elt (origin_offset : Option ℤ) (every : ℤ) (elt0 : ℤ) : ℤ :=
  let elt :=
    match origin_offset with
    | some o => wrap32 (elt0 - o)
    | none => elt0
  if every = 1 then elt else c_floor_div elt every

/-- Loop body of `warp_distance_month` (distance.c); identical shape on the
month offset.  `warp_distance_quarter` delegates here with `every * 3`. -/
def warp_distance_month_elt (origin_offset : Option ℤ) (every : ℤ) (elt0 : ℤ) : ℤ :=
  let elt :=
    match origin_offset with
    | some o => wrap32 (elt0 - o)
    | none => elt0
  if every = 1 then elt else c_floor_div elt every

/-- Loop body of `warp_distance_day` (distance.c); identical shape on the day
offset.  `warp_distance_week` delegates here with `every * 7`. -/
def warp_distance_day_elt (origin_offset : Option ℤ) (every : ℤ) (elt0 : ℤ) : ℤ :=
  let elt :=
    match origin_offset with
    | some o => wrap32 (elt0 - o)
    | none => elt0
  if every = 1 then elt else c_floor_div elt every

/-- `warp_distance_quarter` (distance.c): month distance with `every * 3`. -/
def warp_distance_quarter_elt (origin_offset : Option ℤ) (every : ℤ) (elt0 : ℤ) : ℤ :=
  warp_distance_month_elt origin_offset (every * 3) elt0

/-- `warp_distance_week` (distance.c): day distance with `every * 7`. -/
def warp_distance_week_elt (origin_offset : Option ℤ) (every : ℤ) (elt0 : ℤ) : ℤ :=
  warp_distance_day_elt origin_offset (every * 7) elt0

/-- Loop body of `int_posixct_warp_distance_hour` (distance.c): promote the
`int` seconds to `int64_t`, subtract the origin seconds, divide by 3600 with
the inline floored pattern, then divide by `every` unless it is 1. -/
def int_posixct_warp_distance_hour_elt (origin_offset : Option ℤ) (every : ℤ)
    (x_elt : ℤ) : ℤ :=
  let elt :=
    match origin_offset with
    | some o => wrap64 (x_elt - o)
    | none => x_elt
  let elt := c_floor_div elt 3600
  if every = 1 then elt else c_floor_div elt every

/-- Loop body of `int_posixct_warp_distance_minute` (distance.c); as the hour
path with 60 in place of 3600. -/
def int_posixct_warp_distance_minute_elt (origin_offset : Option ℤ) (every : ℤ)
    (x_elt : ℤ) : ℤ :=
  let elt :=
    match origin_offset with
    | some o => wrap64 (x_elt - o)
    | none => x_elt
  let elt := c_floor_div elt 60
  if every = 1 then elt else c_floor_div elt every

/-- Loop body of `int_posixct_warp_distance_second` (distance.c): promote to
`int64_t`, subtract the origin seconds, then divide by `every` unless 1. -/
def int_posixct_warp_distance_second_elt (origin_offset : Option ℤ) (every : ℤ)
    (x_elt : ℤ) : ℤ :=
  let elt :=
    match origin_offset with
    | some o => wrap64 (x_elt - o)
    | none => x_elt
  if every = 1 then elt else c_floor_div elt every

/-- Loop body of `int_posixct_warp_distance_millisecond` (distance.c): the
source computes `x_elt * MILLISECONDS_IN_SECOND` on `int` operands before the
`int64_t` conversion, so the multiplication is a 32-bit operation; the origin
subtraction is then 64-bit. -/
def int_posixct_warp_distance_millisecond_elt (origin_offset : Option ℤ)
    (every : ℤ) (x_elt : ℤ) : ℤ :=
  let elt := wrap32 (x_elt * 1000)
  let elt :=
    match origin_offset with
    | some o => wrap64 (elt - o)
    | none => elt
  if every = 1 then elt else c_floor_div elt every

-- ---------------------------------------------------------------------------
-- C1: the distance engine and the floored-division primitive.
-- ---------------------------------------------------------------------------

/-- C1: for every non-missing normalized element the engine outputs
`shifted = units_since_epoch - origin_units` when `every = 1` and otherwise
`floor_div(shifted, every)`, where the inline implementation
`a / b` for `a ≥ 0` and `(a - (b - 1)) / b` for `a < 0` (`c_floor_div`)
computes the unique integer `q` with `a = q * b + r`, `0 ≤ r < b`.
The year path subtracts in 32-bit and the POSIXct second path in 64-bit, so
the shifted value is assumed in the respective representable range. -/
theorem C1_engine_floor_div (o every elt a b : ℤ)
    (he : 1 ≤ every)
    (h32a : -(2 ^ 31) ≤ elt - o) (h32b : elt - o < 2 ^ 31)
    (hb : 1 ≤ b) :
    (warp_distance_year_elt (some o) every elt
        = (if every = 1 then elt - o else Int.fdiv (elt - o) every))
    ∧ (int_posixct_warp_distance_second_elt (some o) every elt
        = (if every = 1 then elt - o else Int.fdiv (elt - o) every))
    ∧ (a = c_floor_div a b * b + (a - c_floor_div a b * b)
        ∧ 0 ≤ a - c_floor_div a b * b
        ∧ a - c_floor_div a b * b < b)
    ∧ (∀ q r : ℤ, a = q * b + r → 0 ≤ r → r < b → q = c_floor_div a b) := by
  have hb' : (0 : ℤ) < b := by omega
  have he' : (0 : ℤ) < every := by omega
  have hcb : c_floor_div a b = a / b := by
    rw [c_floor_div_eq_fdiv a hb', Int.fdiv_eq_ediv _ hb'.le]
  have hmod : a - a / b * b = a % b := by
    rw [Int.emod_def]; ring
  refine ⟨?_, ?_, ⟨by ring, ?_, ?_⟩, ?_⟩
  · rw [warp_distance_year_elt]
    simp only [wrap32_eq_self h32a h32b]
    by_cases h1 : every = 1
    · simp [h1]
    · simp [h1, c_floor_div_eq_fdiv _ he']
  · rw [int_posixct_warp_distance_second_elt]
    have h64a : -(2 ^ 63) ≤ elt - o := by omega
    have h64b : elt - o < 2 ^ 63 := by omega
    simp only [wrap64_eq_self h64a h64b]
    by_cases h1 : every = 1
    · simp [h1]
    · simp [h1, c_floor_div_eq_fdiv _ he']
  · rw [hcb, hmod]
    exact Int.emod_nonneg a hb'.ne'
  · rw [hcb, hmod]
    exact Int.emod_lt_of_pos a hb'
  · intro q r hqr hr0 hrb
    rw [hcb]
    exact (((Int.ediv_emod_unique hb').mpr ⟨by rw [hqr]; ring, hr0, hrb⟩).1).symm

/-- Witness for C1 at `o = 3`, `every = 2`, `elt = -4`, `a = -7`, `b = 2`. -/
theorem C1_engine_floor_div_witness :
    (warp_distance_year_elt (some 3) 2 (-4)
        = (if (2 : ℤ) = 1 then (-4 : ℤ) - 3 else Int.fdiv ((-4) - 3) 2))
    ∧ (int_posixct_warp_distance_second_elt (some 3) 2 (-4)
        = (if (2 : ℤ) = 1 then (-4 : ℤ) - 3 else Int.fdiv ((-4) - 3) 2))
    ∧ ((-7 : ℤ) = c_floor_div (-7) 2 * 2 + ((-7) - c_floor_div (-7) 2 * 2)
        ∧ 0 ≤ (-7 : ℤ) - c_floor_div (-7) 2 * 2
        ∧ (-7 : ℤ) - c_floor_div (-7) 2 * 2 < 2)
    ∧ (∀ q r : ℤ, (-7 : ℤ) = q * 2 + r → 0 ≤ r → r < 2 → q = c_floor_div (-7) 2) :=
  C1_engine_floor_div 3 2 (-4) (-7) 2 (by norm_num) (by norm_num) (by norm_num)
    (by norm_num)

-- ---------------------------------------------------------------------------
-- Calendar helpers and the year-day engine (distance.c).
-- ---------------------------------------------------------------------------

/-- The `is_leap_year` macro of distance.c; C `%` truncates like the
division, which is `Int.tmod`. -/
def is_leap_year (year : ℤ) : Bool :=
  (Int.tmod year 4 == 0 && !(Int.tmod year 100 == 0)) || Int.tmod year 400 == 0

/-- `days_before_year` (distance.c): days between 1970-01-01 and the start of
the year `1970 + year_offset`, via the days-before-year-Y-since-0001-01-01
formula re-anchored by the constant 719162. -/
def days_before_year (year_offset : ℤ) : ℤ :=
  let year := year_offset + 1970 - 1
  year * 365 + int_div year 4 - int_div year 100 + int_div year 400 - 719162

/-- `leap_years_before_and_including_year` (distance.c), re-anchored so the
epoch year has value 0 via the constant 477. -/
def leap_years_before_and_including_year (year_offset : ℤ) : ℤ :=
  let year := year_offset + 1970
  int_div year 4 - int_div year 100 + int_div year 400 - 477

/-- `yday_leap_adjustment` (distance.c): 0 before March 1 (0-based yday 58),
otherwise compensate when exactly one of the origin year and the element year
is a leap year. -/
def yday_leap_adjustment (year_offset yday : ℤ) (origin_leap : Bool) : ℤ :=
  if yday < 58 then 0
  else
    let year_is_leap := is_leap_year (year_offset + 1970)
    if origin_leap then (if year_is_leap then 0 else -1)
    else (if year_is_leap then 1 else 0)

/-- `compute_yday_distance` (distance.c). -/
def compute_yday_distance (days_since_epoch year_offset yday origin_year_offset
    origin_yday : ℤ) (origin_leap : Bool)
    (units_in_leap_year units_in_non_leap_year every : ℤ) : ℤ :=
  let origin_yday_adjusted :=
    origin_yday + yday_leap_adjustment year_offset yday origin_leap
  let last_origin_year_offset :=
    if yday < origin_yday_adjusted then year_offset - 1 else year_offset
  let last_origin :=
    days_before_year last_origin_year_offset + origin_yday +
      yday_leap_adjustment last_origin_year_offset origin_yday origin_leap
  let days_since_last_origin := days_since_epoch - last_origin
  let units_in_year := int_div days_since_last_origin every
  let years_between_origins := last_origin_year_offset - origin_year_offset
  let leap_years_between_origins :=
    leap_years_before_and_including_year last_origin_year_offset -
      leap_years_before_and_including_year origin_year_offset
  let non_leap_years_between_origins :=
    years_between_origins - leap_years_between_origins
  let units_between_origins :=
    units_in_leap_year * leap_years_between_origins +
      units_in_non_leap_year * non_leap_years_between_origins
  units_between_origins + units_in_year

/-- Modelled from the spec: `convert_days_to_components` lives in utils.c,
which is not under src/.  Section 4.2 specifies that the decomposition of a
day count must round-trip exactly with `days_before_year`, i.e. it yields the
unique year offset `y` with `days_before_year y ≤ d < days_before_year
(y + 1)`.  This search walks upward from a lower bound; the fuel `d.natAbs +
6` is generous since every step covers at least 365 days. -/
def find_year_offset (d : ℤ) : ℤ → ℕ → ℤ
  | y, 0 => y
  | y, Nat.succ fuel =>
    if days_before_year (y + 1) ≤ d then find_year_offset d (y + 1) fuel else y

/-- Modelled from the spec: the year-offset component of
`convert_days_to_components` (see `find_year_offset`). -/
def year_offset_of_day (d : ℤ) : ℤ :=
  find_year_offset d (Int.fdiv d 366 - 2) (d.natAbs + 6)

/-- Modelled from the spec: the 0-based day-of-year component of
`convert_days_to_components`. -/
def yday_of_day (d : ℤ) : ℤ :=
  d - days_before_year (year_offset_of_day d)

/-- Loop body of `int_date_warp_distance_yday` (distance.c) for a non-`NA`
day count, with the per-call constants computed exactly as the caller does
(the unit counts use the C truncating division on nonnegative operands) and
the origin components provided by `get_origin_yday_components`. -/
def int_date_warp_distance_yday_elt (every origin_year_offset origin_yday : ℤ)
    (elt : ℤ) : ℤ :=
  let units_in_non_leap_year := ctdiv (365 - 1) every + 1
  let units_in_leap_year := ctdiv (366 - 1) every + 1
  let origin_leap := is_leap_year (origin_year_offset + 1970)
  compute_yday_distance elt (year_offset_of_day elt) (yday_of_day elt)
    origin_year_offset origin_yday origin_leap
    units_in_leap_year units_in_non_leap_year every

/-- trunc toward zero on rationals: the C cast `(int) x` of a double. -/
def ratTrunc (q : ℚ) : ℤ :=
  if q < 0 then ⌈q⌉ else ⌊q⌋

/-- Loop body of `dbl_date_warp_distance_yday` (distance.c) for a finite
double day count: the source's comment reads "Truncate fractional pieces
towards 0" and the body runs `int elt = x_elt;`, a cast toward zero, before
the identical computation. -/
def dbl_date_warp_distance_yday_elt (every origin_year_offset origin_yday : ℤ)
    (x_elt : ℚ) : ℤ :=
  let elt := ratTrunc x_elt
  let units_in_non_leap_year := ctdiv (365 - 1) every + 1
  let units_in_leap_year := ctdiv (366 - 1) every + 1
  let origin_leap := is_leap_year (origin_year_offset + 1970)
  compute_yday_distance elt (year_offset_of_day elt) (yday_of_day elt)
    origin_year_offset origin_yday origin_leap
    units_in_leap_year units_in_non_leap_year every

/-- `warp_distance_yweek` (distance.c): yday distance with `every * 7`. -/
def int_date_warp_distance_yweek_elt (every origin_year_offset origin_yday : ℤ)
    (elt : ℤ) : ℤ :=
  int_date_warp_distance_yday_elt (every * 7) origin_year_offset origin_yday elt

lemma ctdiv_eq_fdiv_of_nonneg {a b : ℤ} (ha : 0 ≤ a) (hb : 0 ≤ b) :
    ctdiv a b = Int.fdiv a b := by
  rw [ctdiv_of_nonneg ha, Int.fdiv_eq_ediv _ hb]

/-- The final step shared by every distance loop: emit the shifted value when
`every == 1`, else the inline floored quotient; as one formula this is the
floored division by `every`. -/
lemma if_every_fdiv {every : ℤ} (e : ℤ) (he : 1 ≤ every) :
    (if every = 1 then e else c_floor_div e every) = Int.fdiv e every := by
  by_cases h : every = 1
  · simp [h, Int.fdiv_one]
  · have hc := c_floor_div_eq_fdiv e (show (0 : ℤ) < every by omega)
    simp [h, hc]

lemma warp_distance_year_elt_fdiv (o : Option ℤ) {k : ℤ} (elt : ℤ) (hk : 1 ≤ k) :
    warp_distance_year_elt o k elt = Int.fdiv (warp_distance_year_elt o 1 elt) k := by
  unfold warp_distance_year_elt
  cases o <;> rw [if_pos rfl, if_every_fdiv _ hk]

lemma warp_distance_month_elt_fdiv (o : Option ℤ) {k : ℤ} (elt : ℤ) (hk : 1 ≤ k) :
    warp_distance_month_elt o k elt = Int.fdiv (warp_distance_month_elt o 1 elt) k := by
  unfold warp_distance_month_elt
  cases o <;> rw [if_pos rfl, if_every_fdiv _ hk]

lemma warp_distance_day_elt_fdiv (o : Option ℤ) {k : ℤ} (elt : ℤ) (hk : 1 ≤ k) :
    warp_distance_day_elt o k elt = Int.fdiv (warp_distance_day_elt o 1 elt) k := by
  unfold warp_distance_day_elt
  cases o <;> rw [if_pos rfl, if_every_fdiv _ hk]

-- ---------------------------------------------------------------------------
-- C2: every-scaling.
-- ---------------------------------------------------------------------------

/-- C2 counterexample: for the Yday period the every-scaling law fails.  With
origin 1970-01-01 (`year_offset 0`, `yday 0`) and `x` = 1971-01-01 (day count
365), `every = 2` yields bucket 183, while flooring the `every = 1` distance
(365) by 2 yields 182: the per-year unit count `(365 - 1) / 2 + 1 = 183`
does not commute with the floored division. -/
theorem C2_every_scaling_cex :
    int_date_warp_distance_yday_elt 2 0 0 365 = 183
    ∧ int_date_warp_distance_yday_elt 1 0 0 365 = 365
    ∧ Int.fdiv (int_date_warp_distance_yday_elt 1 0 0 365) 2 = 182
    ∧ int_date_warp_distance_yday_elt 2 0 0 365
        ≠ Int.fdiv (int_date_warp_distance_yday_elt 1 0 0 365) 2 := by
  refine ⟨by decide, by decide, by decide, by decide⟩

/-- C2 amended: the every-scaling law
`distance(x, every = k) = ⌊distance(x, every = 1) / k⌋`
holds slot-wise for the linear period engines — Year, Month, Quarter, Day,
Week, and the POSIXct Hour / Minute / Second / Millisecond integer paths —
but not for the calendar-aligned Yday / Yweek engines (see the
counterexample). -/
theorem C2_every_scaling_amended (o : Option ℤ) (every elt : ℤ)
    (he : 1 ≤ every) :
    warp_distance_year_elt o every elt
        = Int.fdiv (warp_distance_year_elt o 1 elt) every
    ∧ warp_distance_month_elt o every elt
        = Int.fdiv (warp_distance_month_elt o 1 elt) every
    ∧ warp_distance_day_elt o every elt
        = Int.fdiv (warp_distance_day_elt o 1 elt) every
    ∧ warp_distance_quarter_elt o every elt
        = Int.fdiv (warp_distance_quarter_elt o 1 elt) every
    ∧ warp_distance_week_elt o every elt
        = Int.fdiv (warp_distance_week_elt o 1 elt) every
    ∧ int_posixct_warp_distance_hour_elt o every elt
        = Int.fdiv (int_posixct_warp_distance_hour_elt o 1 elt) every
    ∧ int_posixct_warp_distance_minute_elt o every elt
        = Int.fdiv (int_posixct_warp_distance_minute_elt o 1 elt) every
    ∧ int_posixct_warp_distance_second_elt o every elt
        = Int.fdiv (int_posixct_warp_distance_second_elt o 1 elt) every
    ∧ int_posixct_warp_distance_millisecond_elt o every elt
        = Int.fdiv (int_posixct_warp_distance_millisecond_elt o 1 elt) every := by
  have he' : (0 : ℤ) < every := by omega
  refine ⟨warp_distance_year_elt_fdiv o elt he,
    warp_distance_month_elt_fdiv o elt he,
    warp_distance_day_elt_fdiv o elt he, ?_, ?_, ?_, ?_, ?_, ?_⟩
  · rw [warp_distance_quarter_elt, warp_distance_quarter_elt, one_mul,
      warp_distance_month_elt_fdiv o elt (by omega : (1 : ℤ) ≤ every * 3),
      warp_distance_month_elt_fdiv o elt (by norm_num : (1 : ℤ) ≤ 3),
      fdiv_fdiv _ (by norm_num : (0 : ℤ) < 3) he', mul_comm]
  · rw [warp_distance_week_elt, warp_distance_week_elt, one_mul,
      warp_distance_day_elt_fdiv o elt (by omega : (1 : ℤ) ≤ every * 7),
      warp_distance_day_elt_fdiv o elt (by norm_num : (1 : ℤ) ≤ 7),
      fdiv_fdiv _ (by norm_num : (0 : ℤ) < 7) he', mul_comm]
  · unfold int_posixct_warp_distance_hour_elt
    cases o <;> rw [if_pos rfl, if_every_fdiv _ he]
  · unfold int_posixct_warp_distance_minute_elt
    cases o <;> rw [if_pos rfl, if_every_fdiv _ he]
  · unfold int_posixct_warp_distance_second_elt
    cases o <;> rw [if_pos rfl, if_every_fdiv _ he]
  · unfold int_posixct_warp_distance_millisecond_elt
    cases o <;> rw [if_pos rfl, if_every_fdiv _ he]

/-- Witness for the amended C2 at `o = some 5`, `every = 2`, `elt = -7`. -/
theorem C2_every_scaling_amended_witness :
    warp_distance_year_elt (some 5) 2 (-7)
        = Int.fdiv (warp_distance_year_elt (some 5) 1 (-7)) 2
    ∧ warp_distance_month_elt (some 5) 2 (-7)
        = Int.fdiv (warp_distance_month_elt (some 5) 1 (-7)) 2
    ∧ warp_distance_day_elt (some 5) 2 (-7)
        = Int.fdiv (warp_distance_day_elt (some 5) 1 (-7)) 2
    ∧ warp_distance_quarter_elt (some 5) 2 (-7)
        = Int.fdiv (warp_distance_quarter_elt (some 5) 1 (-7)) 2
    ∧ warp_distance_week_elt (some 5) 2 (-7)
        = Int.fdiv (warp_distance_week_elt (some 5) 1 (-7)) 2
    ∧ int_posixct_warp_distance_hour_elt (some 5) 2 (-7)
        = Int.fdiv (int_posixct_warp_distance_hour_elt (some 5) 1 (-7)) 2
    ∧ int_posixct_warp_distance_minute_elt (some 5) 2 (-7)
        = Int.fdiv (int_posixct_warp_distance_minute_elt (some 5) 1 (-7)) 2
    ∧ int_posixct_warp_distance_second_elt (some 5) 2 (-7)
        = Int.fdiv (int_posixct_warp_distance_second_elt (some 5) 1 (-7)) 2
    ∧ int_posixct_warp_distance_millisecond_elt (some 5) 2 (-7)
        = Int.fdiv (int_posixct_warp_distance_millisecond_elt (some 5) 1 (-7)) 2 :=
  C2_every_scaling_amended (some 5) 2 (-7) (by norm_num)

-- ---------------------------------------------------------------------------
-- C3: the leap-compensation algorithm, stated from the spec's words.
-- ---------------------------------------------------------------------------

/-- The adjustment Delta of spec section 4.7, written from the claim's words:
0 when `yday < 58`; 0 when the origin's leap status equals the element
year's; -1 when the origin year is leap and the element year is not; +1 when
the element year is leap and the origin year is not. -/
def spec_yday_delta (year_offset yday : ℤ) (origin_leap : Bool) : ℤ :=
  if yday < 58 then 0
  else if origin_leap = is_leap_year (year_offset + 1970) then 0
  else if origin_leap then -1
  else 1

/-- The year-day bucket of spec section 4.7, steps 1-7, written from the
spec's words: adjust the origin day-of-year by Delta, decrement the last
origin year exactly when `yday < origin_yday + Delta`, count the days since
that origin anniversary, floor-divide by `every`, and add the between-year
units counted with `units_per_leap_year = (366 - 1) / every + 1` and
`units_per_non_leap_year = (365 - 1) / every + 1` (floored division
throughout). -/
def spec_yday_bucket (every days_since_epoch year_offset yday
    origin_year_offset origin_yday : ℤ) (origin_leap : Bool) : ℤ :=
  let origin_yday_adjusted :=
    origin_yday + spec_yday_delta year_offset yday origin_leap
  let last_origin_year_offset :=
    if yday < origin_yday_adjusted then year_offset - 1 else year_offset
  let last_origin_day :=
    days_before_year last_origin_year_offset + origin_yday +
      spec_yday_delta last_origin_year_offset origin_yday origin_leap
  let days_since_last_origin := days_since_epoch - last_origin_day
  let units_in_year := Int.fdiv days_since_last_origin every
  let years_between := last_origin_year_offset - origin_year_offset
  let leap_years_between :=
    leap_years_before_and_including_year last_origin_year_offset -
      leap_years_before_and_including_year origin_year_offset
  let units_per_leap_year := Int.fdiv (366 - 1) every + 1
  let units_per_non_leap_year := Int.fdiv (365 - 1) every + 1
  units_per_leap_year * leap_years_between +
    units_per_non_leap_year * (years_between - leap_years_between) +
    units_in_year

lemma yday_leap_adjustment_eq_spec (year_offset yday : ℤ) (origin_leap : Bool) :
    yday_leap_adjustment year_offset yday origin_leap
      = spec_yday_delta year_offset yday origin_leap := by
  unfold yday_leap_adjustment spec_yday_delta
  by_cases h : yday < 58
  · simp [h]
  · cases origin_leap <;>
      cases hyl : is_leap_year (year_offset + 1970) <;> simp [h, hyl]

/-- C3: the year-day engine computes each non-missing element's bucket
exactly by the spec's leap-compensation algorithm (the element's calendar
components are those of `convert_days_to_components`). -/
theorem C3_yday_leap_algorithm (every origin_year_offset origin_yday elt : ℤ)
    (he : 1 ≤ every) :
    int_date_warp_distance_yday_elt every origin_year_offset origin_yday elt
      = spec_yday_bucket every elt (year_offset_of_day elt) (yday_of_day elt)
          origin_year_offset origin_yday
          (is_leap_year (origin_year_offset + 1970)) := by
  have h364 : ctdiv (365 - 1) every = Int.fdiv (365 - 1) every :=
    ctdiv_eq_fdiv_of_nonneg (by norm_num) (by omega)
  have h365 : ctdiv (366 - 1) every = Int.fdiv (366 - 1) every :=
    ctdiv_eq_fdiv_of_nonneg (by norm_num) (by omega)
  unfold int_date_warp_distance_yday_elt compute_yday_distance spec_yday_bucket
    int_div
  rw [h364, h365]
  simp only [yday_leap_adjustment_eq_spec]

/-- Witness for C3 at `every = 7`, origin 1970-01-01, element day 1096. -/
theorem C3_yday_leap_algorithm_witness :
    int_date_warp_distance_yday_elt 7 0 0 1096
      = spec_yday_bucket 7 1096 (year_offset_of_day 1096) (yday_of_day 1096)
          0 0 (is_leap_year (0 + 1970)) :=
  C3_yday_leap_algorithm 7 0 0 1096 (by norm_num)

-- ---------------------------------------------------------------------------
-- C5: fractional double-storage Dates at day precision.
-- ---------------------------------------------------------------------------

/-- Loop body of `dbl_date_warp_chunk_day` (chunk.c) for a finite double day
count: subtract the (integral) origin day offset in double arithmetic, then
convert to `int` taking `floor(x_elt)` when `x_elt < 0` and the plain
toward-zero cast otherwise (the source comments that flooring is "a guard
against potential fractional dates since casting always goes towards 0"),
then divide by `every` unless it is 1. -/
def dbl_date_warp_chunk_day_elt (every : ℤ) (origin_offset : Option ℤ)
    (x : ℚ) : ℤ :=
  let x_elt :=
    match origin_offset with
    | some o => x - (o : ℚ)
    | none => x
  let elt : ℤ := if x_elt < 0 then ⌊x_elt⌋ else ratTrunc x_elt
  if every = 1 then elt else c_floor_div elt every

lemma ratTrunc_of_nonneg {q : ℚ} (h : 0 ≤ q) : ratTrunc q = ⌊q⌋ := by
  rw [ratTrunc, if_neg (not_lt.mpr h)]

/-- C5 counterexample: in the year-day distance path a fractional double
Date is truncated toward zero, not floored.  At input -1.5 (origin
1970-01-01, `every = 1`) the engine produces the bucket of day -1, namely
-1, and not the bucket of day -2, namely -2. -/
theorem C5_dbl_yday_trunc_cex :
    ratTrunc (-3 / 2 : ℚ) = -1
    ∧ dbl_date_warp_distance_yday_elt 1 0 0 (-3 / 2) = -1
    ∧ int_date_warp_distance_yday_elt 1 0 0 (-1) = -1
    ∧ int_date_warp_distance_yday_elt 1 0 0 (-2) = -2
    ∧ dbl_date_warp_distance_yday_elt 1 0 0 (-3 / 2)
        ≠ int_date_warp_distance_yday_elt 1 0 0 (-2) := by
  have ht : ratTrunc (-3 / 2 : ℚ) = -1 := by
    rw [ratTrunc, if_pos (by norm_num), Int.ceil_eq_iff]
    norm_num
  have hd : dbl_date_warp_distance_yday_elt 1 0 0 (-3 / 2)
      = int_date_warp_distance_yday_elt 1 0 0 (ratTrunc (-3 / 2)) := rfl
  refine ⟨ht, ?_, by decide, by decide, ?_⟩
  · rw [hd, ht]; decide
  · rw [hd, ht]; decide

/-- C5 amended: when day precision is the final resolution the two paths
disagree on fractional double Dates.  The chunk day path floors: its bucket
is `floor_div(⌊x - origin⌋, every)`, so -1.5 is interpreted as day -2.  The
year-day (and hence year-week) distance path instead truncates the double
toward zero before the calendar computation, so there -1.5 is interpreted as
day -1 (see the counterexample). -/
theorem C5_day_precision_amended (every origin_offset : ℤ) (x : ℚ)
    (origin_year_offset origin_yday : ℤ) (he : 1 ≤ every) :
    dbl_date_warp_chunk_day_elt every (some origin_offset) x
        = Int.fdiv ⌊x - (origin_offset : ℚ)⌋ every
    ∧ dbl_date_warp_distance_yday_elt every origin_year_offset origin_yday x
        = int_date_warp_distance_yday_elt every origin_year_offset origin_yday
            (ratTrunc x) := by
  constructor
  · have helt : (if x - (origin_offset : ℚ) < 0 then ⌊x - (origin_offset : ℚ)⌋
        else ratTrunc (x - (origin_offset : ℚ))) = ⌊x - (origin_offset : ℚ)⌋ := by
      by_cases h : x - (origin_offset : ℚ) < 0
      · rw [if_pos h]
      · rw [if_neg h, ratTrunc_of_nonneg (not_lt.mp h)]
    show (if every = 1
        then (if x - (origin_offset : ℚ) < 0 then ⌊x - (origin_offset : ℚ)⌋
          else ratTrunc (x - (origin_offset : ℚ)))
        else c_floor_div
          (if x - (origin_offset : ℚ) < 0 then ⌊x - (origin_offset : ℚ)⌋
            else ratTrunc (x - (origin_offset : ℚ))) every)
      = Int.fdiv ⌊x - (origin_offset : ℚ)⌋ every
    rw [helt, if_every_fdiv _ he]
  · rfl

/-- Witness for the amended C5 at `every = 1`, origin 0, `x = -3/2`. -/
theorem C5_day_precision_amended_witness :
    dbl_date_warp_chunk_day_elt 1 (some 0) (-3 / 2)
        = Int.fdiv ⌊(-3 / 2 : ℚ) - ((0 : ℤ) : ℚ)⌋ 1
    ∧ dbl_date_warp_distance_yday_elt 1 0 0 (-3 / 2)
        = int_date_warp_distance_yday_elt 1 0 0 (ratTrunc (-3 / 2)) :=
  C5_day_precision_amended 1 0 (-3 / 2) 0 0 (by norm_num)

-- ---------------------------------------------------------------------------
-- C4: 64-bit promotion of Date day counts for sub-day periods.
-- ---------------------------------------------------------------------------

/-- Loop body of `int_date_warp_distance_hour` (distance.c): the element
stays an `int` throughout, so both the origin subtraction and
`elt *= HOURS_IN_DAY` are 32-bit operations. -/
def int_date_warp_distance_hour_elt (every : ℤ) (origin_offset : Option ℤ)
    (x_elt : ℤ) : ℤ :=
  let elt :=
    match origin_offset with
    | some o => wrap32 (x_elt - o)
    | none => x_elt
  let elt := wrap32 (elt * 24)
  if every = 1 then elt else c_floor_div elt every

/-- Loop body of `int_date_warp_distance_minute` (distance.c): as the hour
path, 32-bit throughout, with `elt *= MINUTES_IN_DAY`. -/
def int_date_warp_distance_minute_elt (every : ℤ) (origin_offset : Option ℤ)
    (x_elt : ℤ) : ℤ :=
  let elt :=
    match origin_offset with
    | some o => wrap32 (x_elt - o)
    | none => x_elt
  let elt := wrap32 (elt * 1440)
  if every = 1 then elt else c_floor_div elt every

/-- Loop body of `int_date_warp_distance_second` (distance.c): the source
promotes with `int64_t elt = x_elt;` ("Avoid overflow") before subtracting
the origin and multiplying by `SECONDS_IN_DAY`, so those are 64-bit
operations. -/
def int_date_warp_distance_second_elt (every : ℤ) (origin_offset : Option ℤ)
    (x_elt : ℤ) : ℤ :=
  let elt : ℤ := x_elt
  let elt :=
    match origin_offset with
    | some o => wrap64 (elt - o)
    | none => elt
  let elt := wrap64 (elt * 86400)
  if every = 1 then elt else c_floor_div elt every

/-- Loop body of `int_date_warp_distance_millisecond` (distance.c): promoted
with `int64_t elt = x_elt;` before subtracting the origin and multiplying by
`MILLISECONDS_IN_DAY`. -/
def int_date_warp_distance_millisecond_elt (every : ℤ) (origin_offset : Option ℤ)
    (x_elt : ℤ) : ℤ :=
  let elt : ℤ := x_elt
  let elt :=
    match origin_offset with
    | some o => wrap64 (elt - o)
    | none => elt
  let elt := wrap64 (elt * 86400000)
  if every = 1 then elt else c_floor_div elt every

/-- Loop body of `int_date_warp_chunk_second` (chunk.c): the source writes
`int64_t elt = x_elt * SECONDS_IN_DAY;`, so the multiplication is performed
on 32-bit `int` operands and only the already-wrapped product is widened to
`int64_t`; the origin subtraction afterwards is 64-bit. -/
def int_date_warp_chunk_second_elt (every : ℤ) (origin_offset : Option ℤ)
    (x_elt : ℤ) : ℤ :=
  let elt := wrap32 (x_elt * 86400)
  let elt :=
    match origin_offset with
    | some o => wrap64 (elt - o)
    | none => elt
  if every = 1 then elt else c_floor_div elt every

/-- C4: evaluation at the failing inputs.  The chunk-second path multiplies
the day count by 86400 in 32 bits before widening, so day 24856 (late
January 2038) wraps to -2147408896 instead of the exact product 2147558400,
which the promoted distance-second (and millisecond) path does produce; the
hour and minute distance paths never promote, wrapping for large day
counts. -/
theorem C4_promotion_eval :
    int_date_warp_chunk_second_elt 1 none 24856 = -2147408896
    ∧ (24856 : ℤ) * 86400 = 2147558400
    ∧ int_date_warp_chunk_second_elt 1 none 24856 ≠ (24856 : ℤ) * 86400
    ∧ int_date_warp_distance_second_elt 1 none 24856 = 2147558400
    ∧ int_date_warp_distance_millisecond_elt 1 none 24856 = 2147558400000
    ∧ int_date_warp_distance_hour_elt 1 none 134217728 = -1073741824
    ∧ (134217728 : ℤ) * 24 = 3221225472
    ∧ int_date_warp_distance_minute_elt 1 none 2097152 = -1275068416
    ∧ (2097152 : ℤ) * 1440 = 3019898880 := by
  refine ⟨by decide, by decide, by decide, by decide, by decide, by decide,
    by decide, by decide, by decide⟩

-- ---------------------------------------------------------------------------
-- C7: the guarded float-to-integer conversion.
-- ---------------------------------------------------------------------------

/-- `guarded_floor` (distance.c): scale by 1e6, truncate toward zero (C
`trunc`), scale by 1e-6, add the 1e-7 guard, floor, and cast to `int64_t`
(exact for integral in-range doubles; doubles are modelled as exact
rationals). -/
def guarded_floor (x : ℚ) : ℤ :=
  let x1 := x * 1000000
  let x2 : ℚ := (ratTrunc x1 : ℤ)
  let x3 := x2 * (1 / 1000000)
  let x4 := x3 + 1 / 10000000
  ⌊x4⌋

/-- `guarded_floor_to_millisecond` (distance.c): identical through the guard,
then scale to milliseconds before flooring. -/
def guarded_floor_to_millisecond (x : ℚ) : ℤ :=
  let x1 := x * 1000000
  let x2 : ℚ := (ratTrunc x1 : ℤ)
  let x3 := x2 * (1 / 1000000)
  let x4 := x3 + 1 / 10000000
  let x5 := x4 * 1000
  ⌊x5⌋

/-- The guarded floor as the spec's numbered steps of section 4.5 word them:
(1) scale by 10^6, (2) truncate toward zero, (3) scale by 10^-6, (4) add a
guard of 10^-7, (5) floor, (6) cast to signed 64-bit. -/
def spec_guarded_floor (x : ℚ) : ℤ :=
  ⌊(ratTrunc (x * 1000000) : ℚ) * (1 / 1000000) + 1 / 10000000⌋

/-- The millisecond conversion as the spec words it: identical through step
4, then multiply by 10^3 and floor. -/
def spec_guarded_floor_to_millisecond (x : ℚ) : ℤ :=
  ⌊((ratTrunc (x * 1000000) : ℚ) * (1 / 1000000) + 1 / 10000000) * 1000⌋

/-- C7: the implementation follows exactly the specified steps, and on the
double nearest -0.002 seconds (-4611686018427388 * 2^-61) the millisecond
conversion yields -2: the guard rescues the value from the naive
`⌊x * 1000⌋ = -3`. -/
theorem C7_guarded_floor (x : ℚ) :
    guarded_floor x = spec_guarded_floor x
    ∧ guarded_floor_to_millisecond x = spec_guarded_floor_to_millisecond x
    ∧ guarded_floor_to_millisecond
        (-(4611686018427388 : ℚ) / 2305843009213693952) = -2
    ∧ ⌊(-(4611686018427388 : ℚ) / 2305843009213693952) * 1000⌋ = -3
    ∧ guarded_floor (-(4611686018427388 : ℚ) / 2305843009213693952) = -1 := by
  have htr : ratTrunc ((-(4611686018427388 : ℚ) / 2305843009213693952)
      * 1000000) = -2000 := by
    rw [ratTrunc, if_pos (by norm_num), Int.ceil_eq_iff]
    norm_num
  refine ⟨rfl, rfl, ?_, ?_, ?_⟩
  · show (⌊((ratTrunc ((-(4611686018427388 : ℚ) / 2305843009213693952)
        * 1000000) : ℚ) * (1 / 1000000) + 1 / 10000000) * 1000⌋ : ℤ) = -2
    rw [htr, Int.floor_eq_iff]
    norm_num
  · rw [Int.floor_eq_iff]
    norm_num
  · show (⌊(ratTrunc ((-(4611686018427388 : ℚ) / 2305843009213693952)
        * 1000000) : ℚ) * (1 / 1000000) + 1 / 10000000⌋ : ℤ) = -1
    rw [htr, Int.floor_eq_iff]
    norm_num

-- ---------------------------------------------------------------------------
-- Vector-level distance loops (C6, C10).
-- ---------------------------------------------------------------------------

/-- Loop body of `dbl_posixct_warp_distance_second` (distance.c) for a finite
double: guarded floor to integer seconds, subtract the origin seconds
(64-bit), divide by `every` unless 1. -/
def dbl_posixct_warp_distance_second_elt (origin_offset : Option ℤ)
    (every : ℤ) (x_elt : ℚ) : ℤ :=
  let elt := guarded_floor x_elt
  let elt :=
    match origin_offset with
    | some o => wrap64 (elt - o)
    | none => elt
  if every = 1 then elt else c_floor_div elt every

/-- The full loop of `warp_distance_year` (distance.c): a fresh `REALSXP`
vector of the input's length, `NA_REAL` exactly at `NA_INTEGER` slots, and
the widened (`double`) bucket elsewhere. -/
def warp_distance_year_vec (origin_offset : Option ℤ) (every : ℤ)
    (xs : List (Option ℤ)) : List (Option ℚ) :=
  xs.map (fun e => e.map (fun v => ((warp_distance_year_elt origin_offset every v : ℤ) : ℚ)))

/-- The full loop of `warp_distance_day` (distance.c), as
`warp_distance_year_vec`. -/
def warp_distance_day_vec (origin_offset : Option ℤ) (every : ℤ)
    (xs : List (Option ℤ)) : List (Option ℚ) :=
  xs.map (fun e => e.map (fun v => ((warp_distance_day_elt origin_offset every v : ℤ) : ℚ)))

/-- The full loop of `dbl_posixct_warp_distance_second` (distance.c):
`NA_REAL` exactly at non-finite slots (modelled `none`), the widened bucket
elsewhere. -/
def dbl_posixct_warp_distance_second_vec (origin_offset : Option ℤ) (every : ℤ)
    (xs : List (Option ℚ)) : List (Option ℚ) :=
  xs.map (fun e => e.map (fun v => ((dbl_posixct_warp_distance_second_elt origin_offset every v : ℤ) : ℚ)))

lemma isNone_opt_map {α β : Type} (f : α → β) (e : Option α) :
    (e.map f).isNone = e.isNone := by
  cases e <;> rfl

/-- C6: the distance output has exactly the input's length, and a slot is
missing in the output exactly when the input slot was missing (`NA` for the
integer year path, non-finite for the double POSIXct second path); each
non-missing slot produces a value, with no error. -/
theorem C6_length_and_missing (origin_offset : Option ℤ) (every : ℤ)
    (xs : List (Option ℤ)) (ys : List (Option ℚ)) :
    (warp_distance_year_vec origin_offset every xs).length = xs.length
    ∧ (warp_distance_year_vec origin_offset every xs).map Option.isNone
        = xs.map Option.isNone
    ∧ (dbl_posixct_warp_distance_second_vec origin_offset every ys).length
        = ys.length
    ∧ (dbl_posixct_warp_distance_second_vec origin_offset every ys).map
        Option.isNone = ys.map Option.isNone := by
  refine ⟨List.length_map _ _, ?_, List.length_map _ _, ?_⟩
  · rw [warp_distance_year_vec, List.map_map]
    simp [Function.comp_def, isNone_opt_map]
  · rw [dbl_posixct_warp_distance_second_vec, List.map_map]
    simp [Function.comp_def, isNone_opt_map]

/-- C10: every non-missing slot of the distance output is an exactly
integer-valued double (denominator 1 as an exact rational), because each slot
is a signed-integer bucket widened through `Int.cast`; and equality of such
widened values is exact integer equality. -/
theorem C10_integer_valued_output (origin_offset : Option ℤ) (every : ℤ)
    (xs : List (Option ℤ)) (ys : List (Option ℚ)) :
    ((warp_distance_day_vec origin_offset every xs).all
        fun v => v.elim true fun q => q.den == 1) = true
    ∧ ((dbl_posixct_warp_distance_second_vec origin_offset every ys).all
        fun v => v.elim true fun q => q.den == 1) = true
    ∧ ∀ z w : ℤ, ((z : ℚ) = (w : ℚ)) ↔ z = w := by
  refine ⟨?_, ?_, fun z w => Int.cast_inj⟩
  · rw [List.all_eq_true]
    intro v hv
    obtain ⟨e, -, rfl⟩ := List.mem_map.mp hv
    cases e with
    | none => rfl
    | some a => simp [Rat.den_intCast]
  · rw [List.all_eq_true]
    intro v hv
    obtain ⟨e, -, rfl⟩ := List.mem_map.mp hv
    cases e with
    | none => rfl
    | some a => simp [Rat.den_intCast]

-- ---------------------------------------------------------------------------
-- C8: eager validation (distance.c entry points).
-- ---------------------------------------------------------------------------

/-- The calendar classes recognized by `time_class_type` plus the unknown
case. -/
inductive TimeClass
  | date
  | posixct
  | posixlt
  | unknown
deriving DecidableEq

/-- A length-`len` origin value of calendar class `cls` whose (length-1)
payload is `offset` (`none` models `NA`). -/
structure OriginV where
  cls : TimeClass
  len : ℕ
  offset : Option ℤ

/-- R's `NA_INTEGER`, the minimum 32-bit integer. -/
def NA32 : ℤ := -(2 ^ 31)

/-- `validate_every` (distance.c): errors when `every == NA_INTEGER` or
`every <= 0`. -/
def validate_every_ok (every : ℤ) : Bool :=
  !(every == NA32) && decide (0 < every)

/-- `validate_origin` (distance.c): `R_NilValue` passes; otherwise errors
when the length is not 1 or the class is unrecognized. -/
def validate_origin_ok : Option OriginV → Bool
  | none => true
  | some o => (o.len == 1) && !(o.cls == TimeClass.unknown)

/-- `warp_distance` (distance.c) specialised to the year period:
`validate_origin`, then `validate_every`, then the `x` class check, then (in
`warp_distance_year`) the origin-`NA` check, then the loop; `none` models an
error stop. -/
def warp_distance_year_checked (xcls : TimeClass) (xs : List (Option ℤ))
    (every : ℤ) (origin : Option OriginV) : Option (List (Option ℚ)) :=
  if validate_origin_ok origin = false then none
  else if validate_every_ok every = false then none
  else if xcls = TimeClass.unknown then none
  else
    match origin with
    | none => some (warp_distance_year_vec none every xs)
    | some o =>
      match o.offset with
      | none => none
      | some off => some (warp_distance_year_vec (some off) every xs)

lemma validate_every_ok_iff (every : ℤ) :
    validate_every_ok every = true ↔ (every ≠ NA32 ∧ 0 < every) := by
  simp [validate_every_ok]

lemma validate_origin_ok_some_iff (o : OriginV) :
    validate_origin_ok (some o) = true
      ↔ (o.len = 1 ∧ o.cls ≠ TimeClass.unknown) := by
  simp [validate_origin_ok]

/-- C8: the operation errors if and only if `every` is missing or
nonpositive, or the origin is present and fails one of: length 1, recognized
class, non-missing value, or `x` is of unrecognized class; when every
precondition holds an output of the input's length is produced. -/
theorem C8_eager_validation (xcls : TimeClass) (xs : List (Option ℤ))
    (every : ℤ) (origin : Option OriginV) :
    ((warp_distance_year_checked xcls xs every origin).isSome
      ↔ (every ≠ NA32 ∧ 0 < every
          ∧ (∀ o ∈ origin,
              o.len = 1 ∧ o.cls ≠ TimeClass.unknown ∧ o.offset ≠ none)
          ∧ xcls ≠ TimeClass.unknown))
    ∧ ∀ out ∈ warp_distance_year_checked xcls xs every origin,
        out.length = xs.length := by
  constructor
  · cases origin with
    | none =>
      rw [warp_distance_year_checked]
      split_ifs with h1 h2 h3
      · exact absurd h1 (by simp [validate_origin_ok])
      · simp only [Option.isSome_none, Bool.false_eq_true, false_iff]
        intro hP
        exact absurd ((validate_every_ok_iff every).mpr ⟨hP.1, hP.2.1⟩)
          (by simp [h2])
      · simp only [Option.isSome_none, Bool.false_eq_true, false_iff]
        intro hP
        exact hP.2.2.2 h3
      · have h2t : validate_every_ok every = true := by
          revert h2; cases validate_every_ok every <;> simp
        simp only [Option.isSome_some, true_iff]
        exact ⟨((validate_every_ok_iff every).mp h2t).1,
          ((validate_every_ok_iff every).mp h2t).2, by simp, h3⟩
    | some o =>
      rw [warp_distance_year_checked]
      cases ho : o.offset with
      | none =>
        split_ifs with h1 h2 h3 <;>
          simp only [ho, Option.isSome_none, Bool.false_eq_true, false_iff] <;>
          intro hP <;>
          exact (hP.2.2.1 o rfl).2.2 ho
      | some off =>
        split_ifs with h1 h2 h3
        · simp only [Option.isSome_none, Bool.false_eq_true, false_iff]
          intro hP
          obtain ⟨hl, hc, -⟩ := hP.2.2.1 o rfl
          exact absurd ((validate_origin_ok_some_iff o).mpr ⟨hl, hc⟩)
            (by simp [h1])
        · simp only [Option.isSome_none, Bool.false_eq_true, false_iff]
          intro hP
          exact absurd ((validate_every_ok_iff every).mpr ⟨hP.1, hP.2.1⟩)
            (by simp [h2])
        · simp only [Option.isSome_none, Bool.false_eq_true, false_iff]
          intro hP
          exact hP.2.2.2 h3
        · have h1t : validate_origin_ok (some o) = true := by
            revert h1; cases validate_origin_ok (some o) <;> simp
          have h2t : validate_every_ok every = true := by
            revert h2; cases validate_every_ok every <;> simp
          simp only [ho, Option.isSome_some, true_iff]
          refine ⟨((validate_every_ok_iff every).mp h2t).1,
            ((validate_every_ok_iff every).mp h2t).2, ?_, h3⟩
          intro o2 ho2
          have ho2e : o2 = o := by
            have := Option.mem_def.mp ho2
            exact (Option.some_inj.mp this).symm
          rw [ho2e]
          exact ⟨((validate_origin_ok_some_iff o).mp h1t).1,
            ((validate_origin_ok_some_iff o).mp h1t).2, by simp [ho]⟩
  · intro out hout
    cases origin with
    | none =>
      rw [warp_distance_year_checked] at hout
      split_ifs at hout
      all_goals first
        | (rw [Option.mem_def, Option.some_inj] at hout
           rw [← hout, warp_distance_year_vec]
           exact List.length_map _ _)
        | exact absurd hout (by simp)
    | some o =>
      rw [warp_distance_year_checked] at hout
      cases ho : o.offset with
      | none =>
        rw [ho] at hout
        split_ifs at hout <;> simp at hout
      | some off =>
        rw [ho] at hout
        split_ifs at hout
        all_goals first
          | (change out ∈ some (warp_distance_year_vec (some off) every xs)
               at hout
             rw [Option.mem_def, Option.some_inj] at hout
             rw [← hout, warp_distance_year_vec]
             exact List.length_map _ _)
          | exact absurd hout (by simp)

-- ---------------------------------------------------------------------------
-- C9: ranges from changes (ranges.c).
-- ---------------------------------------------------------------------------

/-- `compute_starts` (ranges.c): empty for size 0, `[1]` for size 1,
otherwise `out[0] = 1` and `out[i] = stops[i - 1] + 1` for `1 ≤ i < size`. -/
def compute_starts (x : List ℤ) : List ℤ :=
  if x.length = 0 then []
  else if x.length = 1 then [1]
  else 1 :: (x.take (x.length - 1)).map (fun s => s + 1)

/-- Missing-aware inequality of two distance slots, per spec section 4.8:
missing values compare unequal to everything, including themselves. -/
def opt_neq : Option ℚ → Option ℚ → Bool
  | some a, some b => !(a == b)
  | _, _ => true

/-- Modelled from the spec: `warp_changes` (changes.c) is not under src/.
Section 4.8 specifies the 1-based positions at which the distance value
differs from its predecessor (the position recorded is the last index of the
finished run), with the final position appended; empty input gives an empty
result. -/
def warp_changes (d : List (Option ℚ)) : List ℤ :=
  if d.length = 0 then []
  else
    ((List.range (d.length - 1)).filter (fun i =>
        opt_neq (d.getD i none) (d.getD (i + 1) none))).map (fun i => (i : ℤ) + 1)
      ++ [(d.length : ℤ)]

/-- `warp_ranges` (ranges.c): the stop column is exactly the changes vector
and the start column is `compute_starts` of it. -/
def warp_ranges (x : List (Option ℚ)) : List ℤ × List ℤ :=
  let stops := warp_changes x
  (compute_starts stops, stops)

/-- C9: the stop column of the ranges table equals the changes vector; the
start column has the input's length with `start[0] = 1` and
`start[i] = stop[i-1] + 1` for `i ≥ 1`; both columns are empty for an empty
changes vector and `start = [1]` for a singleton. -/
theorem C9_ranges_round_trip (x : List (Option ℚ)) (stops : List ℤ) (i : ℕ)
    (hi : i < stops.length) :
    (warp_ranges x).2 = warp_changes x
    ∧ (warp_ranges x).1 = compute_starts (warp_changes x)
    ∧ (compute_starts stops).length = stops.length
    ∧ compute_starts [] = ([] : List ℤ)
    ∧ (∀ s : ℤ, compute_starts [s] = [1])
    ∧ (compute_starts stops).getD i 0
        = (if i = 0 then 1 else stops.getD (i - 1) 0 + 1) := by
  refine ⟨rfl, rfl, ?_, rfl, fun s => rfl, ?_⟩
  · rw [compute_starts]
    rcases stops with - | ⟨a, rest⟩
    · simp
    · rcases rest with - | ⟨b, t⟩
      · simp
      · simp [List.length_take]
  · rw [compute_starts]
    rcases stops with - | ⟨a, rest⟩
    · simp at hi
    · rcases rest with - | ⟨b, t⟩
      · rcases i with - | k
        · rfl
        · simp at hi
      · have hlen : (a :: b :: t).length = t.length + 2 := by simp
        rcases i with - | k
        · simp [hlen]
        · have hk : k < t.length + 1 := by
            simp at hi; omega
          have hk2 : k < (a :: b :: t).length := by simp; omega
          simp only [hlen]
          rw [if_neg (by omega), if_neg (by omega),
            List.getD_cons_succ]
          have h21 : t.length + 2 - 1 = t.length + 1 := by omega
          rw [h21, List.getD_eq_getElem?_getD, List.getD_eq_getElem?_getD,
            List.getElem?_map, List.getElem?_take, if_pos hk]
          simp only [Nat.add_sub_cancel]
          rw [List.getElem?_eq_getElem hk2, if_neg (Nat.succ_ne_zero k)]
          rfl

/-- Witness for C9 at the spec's scenario 8 stops `[2, 5, 6]`, index 1, and a
two-element distance vector. -/
theorem C9_ranges_round_trip_witness :
    (warp_ranges [some 1, some 2]).2 = warp_changes [some 1, some 2]
    ∧ (warp_ranges [some 1, some 2]).1
        = compute_starts (warp_changes [some 1, some 2])
    ∧ (compute_starts [2, 5, 6]).length = ([2, 5, 6] : List ℤ).length
    ∧ compute_starts [] = ([] : List ℤ)
    ∧ (∀ s : ℤ, compute_starts [s] = [1])
    ∧ (compute_starts [2, 5, 6]).getD 1 0
        = (if (1 : ℕ) = 0 then 1 else ([2, 5, 6] : List ℤ).getD (1 - 1) 0 + 1) :=
  C9_ranges_round_trip [some 1, some 2] [2, 5, 6] 1 (by norm_num)

/-- Witness for C8 at a valid Date input of length 1 with epoch origin and
`every = 2`. -/
theorem C8_eager_validation_witness :
    ((warp_distance_year_checked TimeClass.date [some 3] 2
        (some ⟨TimeClass.date, 1, some 0⟩)).isSome
      ↔ ((2 : ℤ) ≠ NA32 ∧ (0 : ℤ) < 2
          ∧ (∀ o ∈ (some ⟨TimeClass.date, 1, some 0⟩ : Option OriginV),
              o.len = 1 ∧ o.cls ≠ TimeClass.unknown ∧ o.offset ≠ none)
          ∧ TimeClass.date ≠ TimeClass.unknown))
    ∧ ∀ out ∈ warp_distance_year_checked TimeClass.date [some 3] 2
        (some ⟨TimeClass.date, 1, some 0⟩),
        out.length = [some (3 : ℤ)].length :=
  C8_eager_validation TimeClass.date [some 3] 2 (some ⟨TimeClass.date, 1, some 0⟩)
